import Mathlib

/-!
Shallow embedding of the nexusquiz trivia server (src/trivia-server/app.py).

The server keeps one mutable RaftNode object per process; the websocket
handlers mutate it in place.  Here each handler is embedded as a pure
function from the node state (plus the received message and the current
time, which the source reads via time.time()) to the new node state and
the reply it sends.  Python ints are modelled as Int, timestamps as Int
(nothing proved below depends on fractional time), and the JSON values
the source compares with Python == are modelled by PyVal below.  The
websocket-connection registries (node.connections, connected_players)
hold socket objects and only determine who receives broadcasts; no claim
below mentions them, so they are omitted from the state.
-/

namespace Trivia

/-- Node role; app.py stores it as one of the strings "follower",
"candidate", "leader". -/
inductive Role where
  | follower
  | candidate
  | leader
deriving DecidableEq, Repr

/-- A replicated log entry.  In app.py entries are JSON dicts received in
append_entries messages; the only field the code ever reads back is
"term" (with default 0), the rest is an opaque payload modelled as a
string. -/
structure LogEntry where
  term : Int
  command : String
deriving DecidableEq, Repr

/-- class Player (app.py lines 24-43). -/
structure Player where
  id : String
  name : String
  score : Int
deriving DecidableEq, Repr

/-- class Game (app.py lines 60-82); start_time / end_time come from
time.time(), modelled as Int. -/
structure Game where
  id : String
  question_id : Int
  start_time : Int
  end_time : Int
deriving DecidableEq, Repr

/-- JSON / Python values as far as the program distinguishes them with ==.
The stored question answers are either a string (question 1) or a list of
strings (questions 2-5), and incoming answer_id / question_id fields are
arbitrary JSON; any value that is not a number, bool, string or list of
strings compares unequal to every stored answer exactly like strList with
different contents, so this quotient is faithful for every comparison the
program performs. -/
inductive PyVal where
  | null
  | int (n : Int)
  | bool (b : Bool)
  | str (s : String)
  | strList (xs : List String)
deriving DecidableEq, Repr

/-- Python equality (==) on the values above.  Python's bool is a subtype
of int, so True == 1 and False == 0; values of otherwise different types
compare unequal. -/
def pyEq : PyVal → PyVal → Bool
  | .int a, .int b => a == b
  | .int a, .bool b => a == (if b then (1 : Int) else 0)
  | .bool a, .int b => (if a then (1 : Int) else 0) == b
  | .bool a, .bool b => a == b
  | .str a, .str b => a == b
  | .strList a, .strList b => a == b
  | .null, .null => true
  | _, _ => false

/-- class Question (app.py lines 45-58). -/
structure Question where
  id : Int
  question : String
  options : List String
  answer : PyVal
deriving DecidableEq, Repr

/-- The module-level question bank (app.py lines 108-139), verbatim:
question 1 stores its answer as the bare string "19", questions 2-5 as
singleton lists of the answer text. -/
def questions : List Question :=
  [ { id := 1, question := "What is 9 + 10?",
      options := ["19", "21", "22", "23"], answer := .str "19" },
    { id := 2, question := "Out of these rappers, who has the most Grammy award wins?",
      options := ["Drake", "Kendrick Lamar", "Lil Wayne", "Eminem"],
      answer := .strList ["Kendrick Lamar"] },
    { id := 3, question := "What is the chemical symbol for Potassium?",
      options := ["Po", "Na", "Mg", "K"], answer := .strList ["K"] },
    { id := 4, question := "Which makeup product is generally applied under the eyes?",
      options := ["Foundation", "Concealer", "Bronzer", "Eyeshadow"],
      answer := .strList ["Concealer"] },
    { id := 5, question := "Which country is considered an island?",
      options := ["Russia", "Canada", "Kazakhstan", "Sri Lanka"],
      answer := .strList ["Sri Lanka"] } ]

/-- Python runtime errors raised by the expressions the embedding covers. -/
inductive PyError where
  | typeError
  | indexError
deriving DecidableEq, Repr

/-- Python list indexing xs[i]: negative indices count from the end,
out-of-range indices raise IndexError. -/
def pyIndex {α : Type} (xs : List α) (i : Int) : Except PyError α :=
  let j : Int := if i < 0 then i + (xs.length : Int) else i
  if h : 0 ≤ j ∧ j.toNat < xs.length then .ok (xs.get ⟨j.toNat, h.2⟩)
  else .error .indexError

/-- Python list indexing by an arbitrary JSON value: ints (and bools,
which index as 0/1) are accepted, anything else raises TypeError. -/
def pyIndexVal {α : Type} (xs : List α) (v : PyVal) : Except PyError α :=
  match v with
  | .int n => pyIndex xs n
  | .bool b => pyIndex xs (if b then (1 : Int) else 0)
  | _ => .error .typeError

/-- Python evaluation of a list minus an int.  list defines no subtraction
operator, so the expression questions - 1 inside start_new_game
(app.py line 203) raises TypeError unconditionally. -/
def pySubListInt {α : Type} (_xs : List α) (_n : Int) : Except PyError (List α) :=
  .error .typeError

/-- The state of one RaftNode (app.py lines 84-104) together with the
session store it carries (players, active_game). -/
structure RaftState where
  id : String
  all_nodes : List String
  current_term : Int
  voted_for : Option String
  log : List LogEntry
  commit_index : Int
  last_applied : Int
  role : Role
  leader_id : Option String
  last_heartbeat : Int
  election_timeout : Int
  players : List (String × Player)
  active_game : Option Game
deriving DecidableEq, Repr

/-- RaftNode.__init__ (app.py lines 85-104): term 0, no vote, empty log,
commit_index 0, follower with no known leader, empty player store, no
active game.  t0 is the startup clock reading and timeout the random
draw from the timeout range. -/
def RaftNode_init (id : String) (all_nodes : List String) (t0 timeout : Int) : RaftState :=
  { id := id, all_nodes := all_nodes, current_term := 0, voted_for := Option.none,
    log := [], commit_index := 0, last_applied := 0, role := .follower,
    leader_id := Option.none, last_heartbeat := t0, election_timeout := timeout,
    players := [], active_game := Option.none }

/-- Membership test of the players dict (Python: id in node.players). -/
def dictContains (m : List (String × Player)) (k : String) : Bool :=
  m.any (fun p => p.1 == k)

/-- Lookup in the players dict (Python: node.players[id], total variant). -/
def dictGet (m : List (String × Player)) (k : String) : Option Player :=
  (m.find? (fun p => p.1 == k)).map (fun p => p.2)

/-- Assignment node.players[id] = player: dicts update in place when the
key exists and append in insertion order otherwise. -/
def dictInsert (m : List (String × Player)) (k : String) (v : Player) :
    List (String × Player) :=
  if dictContains m k then m.map (fun p => if p.1 == k then (k, v) else p)
  else m ++ [(k, v)]

/-- Deletion del node.players[id]. -/
def dictDel (m : List (String × Player)) (k : String) : List (String × Player) :=
  m.filter (fun p => !(p.1 == k))

/-- node.players[id].score += 10 (app.py line 290) as a map update. -/
def bumpScore (m : List (String × Player)) (k : String) : List (String × Player) :=
  m.map (fun p => if p.1 == k then (p.1, { p.2 with score := p.2.score + 10 }) else p)

/-- append_to_log (app.py lines 182-183) is a placeholder whose body is
pass: it performs no state change at all, so its state effect embeds as
the identity on the node state.  Every call site writes
await append_to_log() (lines 216, 261, 293, 320); awaiting the plain
None it returns raises TypeError in the source, so a leader-gated call
site raises after the mutations preceding it have been applied.  The
theorems below exercise these leader branches only where the mutation
they speak about precedes the call (the disconnect cleanup); statements
about the replies sent after such a call assume a non-leader node. -/
def append_to_log (st : RaftState) : RaftState := st

/-- An append_entries message.  The RPC format of the protocol carries
the index and term of the entry preceding the new ones; the handler in
app.py reads only term, leader_id and entries via message.get, so the
prev fields are present here but ignored by handleAppendEntries. -/
structure AppendEntriesMsg where
  term : Int
  leader_id : Option String
  prev_log_index : Int
  prev_log_term : Int
  entries : List LogEntry
deriving DecidableEq, Repr

/-- The append_entries_response message (fields the sender fills). -/
structure AppendEntriesResp where
  term : Int
  success : Bool
deriving DecidableEq, Repr

/-- A request_vote message (app.py lines 366-369, read via message.get
with defaults 0 / None / -1 / 0). -/
structure RequestVoteMsg where
  term : Int
  candidate_id : Option String
  last_log_index : Int
  last_log_term : Int
deriving DecidableEq, Repr

/-- The request_vote_response message. -/
structure RequestVoteResp where
  term : Int
  vote_granted : Bool
deriving DecidableEq, Repr

/-- The append_entries branch of ws_node (app.py lines 339-363): if the
message term is at least the local term, adopt the term and the sender as
leader, become follower, reset the election timer (last_heartbeat = now),
extend the log with the carried entries, and answer success; otherwise
answer failure with no state change.  No preceding-entry check and no
truncation occur in the source. -/
def handleAppendEntries (st : RaftState) (m : AppendEntriesMsg) (now : Int) :
    RaftState × AppendEntriesResp :=
  if m.term ≥ st.current_term then
    ({ st with current_term := m.term, role := .follower,
               leader_id := m.leader_id, last_heartbeat := now,
               log := st.log ++ m.entries },
     { term := m.term, success := true })
  else
    (st, { term := st.current_term, success := false })

/-- node.log[-1].get("term", 0) if node.log else 0 (app.py line 379). -/
def lastLogTermOf (st : RaftState) : Int :=
  match st.log.getLast? with
  | Option.none => 0
  | some e => e.term

/-- len(node.log) - 1 (app.py line 380); -1 on an empty log. -/
def lastLogIndexOf (st : RaftState) : Int := (st.log.length : Int) - 1

/-- The request_vote branch of ws_node (app.py lines 365-391).  A higher
message term first makes the node adopt the term, clear its vote and
become follower; the vote is then granted when the node has no recorded
vote (or recorded this candidate), the message term is at least the local
term, and the candidate's last log entry is at least as recent (term,
then index); granting records the vote and resets the election timer. -/
def handleRequestVote (st : RaftState) (m : RequestVoteMsg) (now : Int) :
    RaftState × RequestVoteResp :=
  let st1 := if m.term > st.current_term then
               { st with current_term := m.term, voted_for := Option.none,
                         role := .follower }
             else st
  if (st1.voted_for = Option.none ∨ st1.voted_for = m.candidate_id) ∧
      m.term ≥ st1.current_term then
    if m.last_log_term > lastLogTermOf st1 ∨
        (m.last_log_term = lastLogTermOf st1 ∧ m.last_log_index ≥ lastLogIndexOf st1) then
      ({ st1 with voted_for := m.candidate_id, last_heartbeat := now },
       { term := st1.current_term, vote_granted := true })
    else (st1, { term := st1.current_term, vote_granted := false })
  else (st1, { term := st1.current_term, vote_granted := false })

/-- The welcome message ws_player sends back on a join (app.py
lines 263-268): the new player, the current roster and the active game.
The source unconditionally answers with this message; it has no error
variant. -/
structure JoinReply where
  player : Player
  players : List Player
  active_game : Option Game
deriving DecidableEq, Repr

/-- The join branch of ws_player (app.py lines 253-273): create the
player with score 0, put it into node.players, call the placeholder
append_to_log when leader, and reply with the welcome message.  No role
or leader check guards the mutation.  On a leader the source's
await append_to_log() at line 261 raises TypeError before the welcome
send at line 263, so the reply component is meaningful only on
non-leader states; the theorems below about the reply assume
role ≠ leader. -/
def handleJoin (st : RaftState) (pid name : String) : RaftState × JoinReply :=
  let player : Player := { id := pid, name := name, score := 0 }
  let st1 := { st with players := dictInsert st.players pid player }
  let st2 := if st1.role = .leader then append_to_log st1 else st1
  (st2, { player := player, players := st2.players.map (fun p => p.2),
          active_game := st2.active_game })

/-- The update_score message (app.py lines 295-299). -/
structure ScoreReply where
  correct : Bool
  score : Int
deriving DecidableEq, Repr

/-- The answer branch of ws_player (app.py lines 279-304): when an active
game exists, its question_id equals the submitted one and the clock is
before end_time, the submitted answer_id is compared by Python == with
questions[question_id].answer; on a match (and the player being present)
the player's score is raised by 10; the update_score reply reports the
comparison result and the player's current score (0 when absent).
Outside the guard nothing happens and no reply is sent.  On a leader a
correct answer reaches await append_to_log() (line 293), which raises
TypeError before the reply; the theorem below evaluates this handler
only at a follower state. -/
def handleAnswer (st : RaftState) (pid : String) (question_id answer_id : PyVal)
    (now : Int) : Except PyError (RaftState × Option ScoreReply) :=
  match st.active_game with
  | Option.none => .ok (st, Option.none)
  | some g =>
    if pyEq (.int g.question_id) question_id = true ∧ now < g.end_time then
      match pyIndexVal questions question_id with
      | .error e => .error e
      | .ok q =>
        let correct := pyEq q.answer answer_id
        let st1 :=
          if correct = true ∧ dictContains st.players pid = true then
            let stb := { st with players := bumpScore st.players pid }
            if stb.role = .leader then append_to_log stb else stb
          else st
        .ok (st1, some { correct := correct,
                         score := match dictGet st1.players pid with
                                  | Option.none => 0
                                  | some p => p.score })
    else .ok (st, Option.none)

/-- The cleanup block of ws_player (app.py lines 312-325), run when the
player's websocket handler terminates for any reason (disconnect or
error): if the player is in node.players it is deleted (followed by the
placeholder append_to_log when leader and a player_left broadcast).
The delete at line 317 precedes the leader-only await at line 320, so
the player-map outcome modelled here is the one the source produces on
every role even though that await raises on a leader. -/
def handleDisconnect (st : RaftState) (pid : String) : RaftState :=
  if dictContains st.players pid then
    let st1 := { st with players := dictDel st.players pid }
    if st1.role = .leader then append_to_log st1 else st1
  else st

/-- random.randint(0, len(questions - 1)) (app.py line 203): the
subexpression questions - 1 is evaluated first and raises TypeError, so
the randint call is never reached whatever random values would be
drawn. -/
def select_question_id (randint : Int → Int → Int) : Except PyError Int :=
  match pySubListInt questions 1 with
  | .error e => .error e
  | .ok qs => .ok (randint 0 (qs.length : Int))

/-- The new_question broadcast (app.py lines 219-225). -/
structure QuestionBroadcast where
  question : String
  options : List String
  question_id : Int
  time_limit : Int
deriving DecidableEq, Repr

/-- start_new_game (app.py lines 199-227): a non-leader returns at once;
a leader draws a question id, records the active game (30 second window),
calls the placeholder append_to_log, and broadcasts the question at the
drawn index. -/
def start_new_game (st : RaftState) (randint : Int → Int → Int) (game_id : String)
    (now : Int) : Except PyError (RaftState × Option QuestionBroadcast) :=
  if st.role ≠ .leader then .ok (st, Option.none)
  else
    match select_question_id randint with
    | .error e => .error e
    | .ok qid =>
      let st1 := { st with active_game := some { id := game_id, question_id := qid,
                                                 start_time := now, end_time := now + 30 } }
      let st2 := append_to_log st1
      match pyIndex questions qid with
      | .error e => .error e
      | .ok q => .ok (st2, some { question := q.question, options := q.options,
                                  question_id := qid, time_limit := 30 })

/-- become_leader (app.py lines 447-457), state part: role leader,
leader_id self, heartbeat reset.  (It then broadcasts new_leader and
invokes start_new_game, modelled separately.) -/
def become_leader (st : RaftState) (now : Int) : RaftState :=
  { st with role := .leader, leader_id := some st.id, last_heartbeat := now }

/-- The candidate transition at the top of start_election (app.py
lines 401-408): role candidate, term + 1, self-vote, fresh random
timeout, timer reset. -/
def startElectionCandidate (st : RaftState) (now timeout : Int) : RaftState :=
  { st with role := .candidate, current_term := st.current_term + 1,
            voted_for := some st.id, election_timeout := timeout,
            last_heartbeat := now }

/-- start_election (app.py lines 401-435): after the candidate
transition, votes are counted as 1 (self) plus one per peer response
whose vote_granted field is truthy; grants lists those response flags,
one per peer that was contacted and answered (unreachable peers
contribute nothing).  The node becomes leader exactly when
votes > len(node.all_nodes) // 2. -/
def start_election (st : RaftState) (grants : List Bool) (now timeout : Int) : RaftState :=
  if 1 + (grants.filter (fun b => b)).length > (startElectionCandidate st now timeout).all_nodes.length / 2 then
    become_leader (startElectionCandidate st now timeout) now
  else startElectionCandidate st now timeout

/-! Claim-side notions and concrete states used by the theorems below. -/

/-- The log has an entry at (0-based) position idx carrying term tm. -/
def hasEntryAt (log : List LogEntry) (idx tm : Int) : Bool :=
  if 0 ≤ idx then
    match log.get? idx.toNat with
    | Option.none => false
    | some e => e.term == tm
  else false

/-- The receiver's term after the step-down check of the vote handler:
the message term when it is higher, the local term otherwise. -/
def effectiveTerm (st : RaftState) (m : RequestVoteMsg) : Int :=
  if m.term > st.current_term then m.term else st.current_term

/-- The receiver's recorded vote after the step-down check of the vote
handler: cleared when the message term is higher. -/
def effectiveVotedFor (st : RaftState) (m : RequestVoteMsg) : Option String :=
  if m.term > st.current_term then Option.none else st.voted_for

/-- The candidate's last log entry is at least as up to date as the
receiver's: strictly newer last term, or equal last term and at least
the receiver's last index. -/
def candidateUpToDate (st : RaftState) (m : RequestVoteMsg) : Bool :=
  decide (m.last_log_term > lastLogTermOf st) ||
    (decide (m.last_log_term = lastLogTermOf st) &&
     decide (m.last_log_index ≥ lastLogIndexOf st))

/-- The stored answer of the question at position k of the bank (an
arbitrary non-integer value for positions past the end, so that the
statement about it is total). -/
def answerOfIdx (k : Nat) : PyVal :=
  match questions.get? k with
  | Option.none => .str ""
  | some q => q.answer

/-- The answer text a question stores: directly for question 1, as the
sole member of a singleton list for questions 2-5. -/
def answerText (q : Question) : Option String :=
  match q.answer with
  | .str s => some s
  | .strList [s] => some s
  | _ => Option.none

/-- The option index holding a question's stored answer text: the
"correct index" of the claim. -/
def correctIndexOf (q : Question) : Option Nat :=
  match answerText q with
  | Option.none => Option.none
  | some s => q.options.findIdx? (fun o => o == s)

/-- A freshly started single node (startup_event, app.py lines 141-152). -/
def initialNode : RaftState := RaftNode_init "n1" ["n1"] 0 2

/-- A freshly started node of a three-node cluster: follower, term 0,
no known leader, empty log and player store. -/
def followerSt : RaftState := RaftNode_init "n1" ["n1", "n2", "n3"] 0 2

/-- A candidate that has voted for node X in term 1. -/
def votedSt : RaftState :=
  { followerSt with current_term := 1, voted_for := some "X", role := .candidate }

/-- A heartbeat from node n2 for term 2 (no entries). -/
def aeMsg2 : AppendEntriesMsg :=
  { term := 2, leader_id := some "n2", prev_log_index := -1, prev_log_term := 0,
    entries := [] }

/-- An append_entries call for term 1 claiming a preceding entry at
index 3 with term 7 and carrying one new entry. -/
def aeMsgPrev : AppendEntriesMsg :=
  { term := 1, leader_id := some "n2", prev_log_index := 3, prev_log_term := 7,
    entries := [{ term := 1, command := "join" }] }

/-- A node with one player p1 (score 0) and an active game showing the
question at position 0, open from time 0 to 30. -/
def ansSt : RaftState :=
  { followerSt with
    players := [("p1", { id := "p1", name := "Alice", score := 0 })],
    active_game := some { id := "g1", question_id := 0, start_time := 0, end_time := 30 } }

/-- A node that won an election (leader role). -/
def leaderSt : RaftState :=
  { followerSt with role := .leader, leader_id := some "n1" }

/-- A follower at term 5 that voted for X, with one log entry. -/
def term5St : RaftState :=
  { followerSt with current_term := 5, voted_for := some "X",
                    log := [{ term := 4, command := "join" }] }

/-- A stale heartbeat for term 3 (below term 5). -/
def staleAeMsg : AppendEntriesMsg :=
  { term := 3, leader_id := some "n2", prev_log_index := -1, prev_log_term := 0,
    entries := [{ term := 3, command := "x" }] }

/-- A stale vote request for term 3 (below term 5). -/
def staleRvMsg : RequestVoteMsg :=
  { term := 3, candidate_id := some "n3", last_log_index := 9, last_log_term := 9 }

/-- A vote request for term 2 from candidate n9 with an empty-log
candidate position (index -1, term 0). -/
def rvHighMsg : RequestVoteMsg :=
  { term := 2, candidate_id := some "n9", last_log_index := -1, last_log_term := 0 }

/-! Helper lemmas about the players dict. -/

/-- Lookup on a non-empty dict: the head answers when its key matches. -/
theorem dictGet_cons (a : String × Player) (t : List (String × Player)) (q : String) :
    dictGet (a :: t) q = if a.1 = q then some a.2 else dictGet t q := by
  by_cases h : a.1 = q <;> simp [dictGet, List.find?_cons, h]

/-- Deletion on a non-empty dict keeps the head unless its key matches. -/
theorem dictDel_cons (a : String × Player) (t : List (String × Player)) (k : String) :
    dictDel (a :: t) k = if a.1 = k then dictDel t k else a :: dictDel t k := by
  by_cases h : a.1 = k <;> simp [dictDel, List.filter_cons, h]

/-- Deleting key k removes exactly k and leaves every other binding. -/
theorem dictGet_dictDel (m : List (String × Player)) (k q : String) :
    dictGet (dictDel m k) q = if q = k then Option.none else dictGet m q := by
  induction m with
  | nil => simp [dictGet, dictDel]
  | cons a t ih =>
    rw [dictDel_cons]
    by_cases hak : a.1 = k
    · rw [if_pos hak, ih, dictGet_cons]
      by_cases hq : q = k
      · simp [hq]
      · have haq : ¬ a.1 = q := by rw [hak]; exact fun e => hq e.symm
        simp [hq, haq]
    · rw [if_neg hak, dictGet_cons, dictGet_cons]
      by_cases haq : a.1 = q
      · have hq : ¬ q = k := fun e => hak (by rw [haq, e])
        simp [haq, hq]
      · simp [haq, ih]

/-- A key that fails the membership test has no binding. -/
theorem dictGet_eq_none_of_not_contains (m : List (String × Player)) (k : String)
    (h : dictContains m k = false) : dictGet m k = Option.none := by
  induction m with
  | nil => rfl
  | cons a t ih =>
    rw [dictGet_cons]
    simp [dictContains, List.any_cons] at h
    rw [if_neg h.1]
    exact ih (by simp [dictContains]; exact h.2)

/-- After inserting key k the dict contains k. -/
theorem dictContains_dictInsert (m : List (String × Player)) (k : String) (v : Player) :
    dictContains (dictInsert m k v) k = true := by
  unfold dictInsert
  split_ifs with h
  · unfold dictContains at h ⊢
    rw [List.any_map]
    rw [List.any_eq_true] at h ⊢
    obtain ⟨x, hx, hk⟩ := h
    refine ⟨x, hx, ?_⟩
    simp [Function.comp, hk]
  · unfold dictContains
    rw [List.any_append]
    simp [dictContains] at h ⊢

/-- The boolean up-to-date check spelled out as a proposition. -/
theorem candidateUpToDate_iff (st : RaftState) (m : RequestVoteMsg) :
    candidateUpToDate st m = true ↔
      (m.last_log_term > lastLogTermOf st ∨
       (m.last_log_term = lastLogTermOf st ∧ m.last_log_index ≥ lastLogIndexOf st)) := by
  unfold candidateUpToDate
  simp

/-! The claims. -/

/-- Claim C1.  The claim says a client mutation becomes visible in the
node's session projection only after the corresponding command is
committed at a quorum-acknowledged log index.  The code contradicts it:
handling a join on a freshly started node makes the player visible in
node.players at once while the log is still empty and commit_index is
still 0 — append_to_log is a placeholder that records nothing, so no
command for the mutation ever exists in the log, let alone a committed
one. -/
theorem C1_join_visible_before_commit :
    dictContains (handleJoin initialNode "p1" "Alice").1.players "p1" = true ∧
    (handleJoin initialNode "p1" "Alice").1.log = [] ∧
    (handleJoin initialNode "p1" "Alice").1.commit_index = 0 := by
  decide

/-- Claim C2, counterexample.  The claim says entries are accepted only
if the receiver's log has an entry at the stated preceding index with
the stated preceding term.  Concretely: a follower with an EMPTY log
receives an append_entries call claiming a preceding entry at index 3
with term 7; its log has no such entry, yet the handler answers success
and appends the carried entries — no consistency check or truncation
exists in the code. -/
theorem C2_accepts_entries_without_prev_check :
    aeMsgPrev.term ≥ followerSt.current_term ∧
    hasEntryAt followerSt.log aeMsgPrev.prev_log_index aeMsgPrev.prev_log_term = false ∧
    (handleAppendEntries followerSt aeMsgPrev 0).2.success = true ∧
    (handleAppendEntries followerSt aeMsgPrev 0).1.log = followerSt.log ++ aeMsgPrev.entries := by
  decide

/-- Claim C2, amended.  For every append-entries message whose term is
at least the receiver's current term, the receiver resets its election
timer, adopts the sender as leader and the message's term, and
unconditionally appends the carried entries to the end of its log — no
preceding-entry consistency check and no conflict truncation are
performed; a message with a lower term is rejected with no state
change. -/
theorem C2_append_entries_amended :
    ∀ (st : RaftState) (m : AppendEntriesMsg) (now : Int),
      (m.term ≥ st.current_term →
        handleAppendEntries st m now =
          ({ st with current_term := m.term, role := .follower, leader_id := m.leader_id,
                     last_heartbeat := now, log := st.log ++ m.entries },
           { term := m.term, success := true })) ∧
      (m.term < st.current_term →
        handleAppendEntries st m now = (st, { term := st.current_term, success := false })) := by
  intro st m now
  constructor
  · intro h
    simp [handleAppendEntries, h]
  · intro h
    simp [handleAppendEntries, not_le.mpr h]

/-- Witness for C2 amended: a term-1 call on a term-0 follower is
accepted with the entries appended; a term-0 call on a term-1 node is
rejected unchanged. -/
theorem C2_append_entries_amended_witness :
    handleAppendEntries followerSt aeMsgPrev 0 =
      ({ followerSt with current_term := 1, role := .follower, leader_id := some "n2",
                         last_heartbeat := 0, log := followerSt.log ++ aeMsgPrev.entries },
       { term := 1, success := true }) ∧
    handleAppendEntries votedSt { aeMsgPrev with term := 0 } 4 =
      (votedSt, { term := 1, success := false }) :=
  ⟨(C2_append_entries_amended followerSt aeMsgPrev 0).1 (by decide),
   (C2_append_entries_amended votedSt { aeMsgPrev with term := 0 } 4).2 (by decide)⟩

/-- Claim C3, counterexample.  The claim says any message with a
strictly higher term makes the receiver clear its recorded vote.  A
candidate that voted for X in term 1 receives an append_entries call for
term 2: the handler adopts term 2 and becomes follower but leaves
voted_for = X — the append_entries branch never touches voted_for. -/
theorem C3_append_entries_preserves_vote :
    aeMsg2.term > votedSt.current_term ∧
    (handleAppendEntries votedSt aeMsg2 7).1.voted_for = some "X" := by
  decide

/-- Claim C3, amended.  On a vote request with a strictly higher term
the receiver adopts the term, reverts to follower and clears its vote
(possibly re-recording it for the requesting candidate when it grants);
on an append-entries message with a strictly higher term it adopts the
term and reverts to follower but leaves its recorded vote unchanged. -/
theorem C3_step_down_amended :
    ∀ (st : RaftState) (now : Int),
      (∀ m : RequestVoteMsg, m.term > st.current_term →
        (handleRequestVote st m now).1.current_term = m.term ∧
        (handleRequestVote st m now).1.role = Role.follower ∧
        ((handleRequestVote st m now).1.voted_for = Option.none ∨
         (handleRequestVote st m now).1.voted_for = m.candidate_id)) ∧
      (∀ m : AppendEntriesMsg, m.term > st.current_term →
        (handleAppendEntries st m now).1.current_term = m.term ∧
        (handleAppendEntries st m now).1.role = Role.follower ∧
        (handleAppendEntries st m now).1.voted_for = st.voted_for) := by
  intro st now
  constructor
  · intro m h
    unfold handleRequestVote
    simp only [if_pos h]
    split_ifs <;> simp
  · intro m h
    unfold handleAppendEntries
    simp only [if_pos (le_of_lt h)]
    simp

/-- Witness for C3 amended: a term-2 vote request on a term-0 follower,
and a term-2 heartbeat on a term-1 candidate that had voted for X. -/
theorem C3_step_down_amended_witness :
    ((handleRequestVote followerSt rvHighMsg 3).1.current_term = 2 ∧
     (handleRequestVote followerSt rvHighMsg 3).1.role = Role.follower ∧
     ((handleRequestVote followerSt rvHighMsg 3).1.voted_for = Option.none ∨
      (handleRequestVote followerSt rvHighMsg 3).1.voted_for = some "n9")) ∧
    ((handleAppendEntries votedSt aeMsg2 7).1.current_term = 2 ∧
     (handleAppendEntries votedSt aeMsg2 7).1.role = Role.follower ∧
     (handleAppendEntries votedSt aeMsg2 7).1.voted_for = votedSt.voted_for) :=
  ⟨(C3_step_down_amended followerSt 3).1 rvHighMsg (by decide),
   (C3_step_down_amended votedSt 7).2 aeMsg2 (by decide)⟩

/-- Claim C4.  A vote is granted if and only if the receiver's recorded
vote — after the step-down triggered by a higher message term, which
clears it — is empty or already names this candidate, the message term
is at least the receiver's current term, and the candidate's last log
entry is at least as up to date (compared first by last term, then by
last index); and a request whose term is lower than the receiver's
current term is never granted. -/
theorem C4_vote_granted_iff :
    ∀ (st : RaftState) (m : RequestVoteMsg) (now : Int),
      ((handleRequestVote st m now).2.vote_granted = true ↔
        ((effectiveVotedFor st m = Option.none ∨ effectiveVotedFor st m = m.candidate_id) ∧
         m.term ≥ st.current_term ∧ candidateUpToDate st m = true)) ∧
      (m.term < st.current_term → (handleRequestVote st m now).2.vote_granted = false) := by
  intro st m now
  have key : (handleRequestVote st m now).2.vote_granted = true ↔
      ((effectiveVotedFor st m = Option.none ∨ effectiveVotedFor st m = m.candidate_id) ∧
       m.term ≥ st.current_term ∧ candidateUpToDate st m = true) := by
    rw [candidateUpToDate_iff]
    unfold handleRequestVote effectiveVotedFor
    by_cases h1 : m.term > st.current_term
    · simp only [if_pos h1]
      split_ifs with hA hB
      · constructor
        · intro _
          exact ⟨Or.inl trivial, by omega, hB⟩
        · intro _
          trivial
      · constructor
        · intro hfalse
          exact hfalse.elim
        · intro hR
          exact absurd hR.2.2 hB
      · constructor
        · intro hfalse
          exact hfalse.elim
        · intro hR
          exact absurd ⟨Or.inl trivial, le_refl m.term⟩ hA
    · simp only [if_neg h1]
      split_ifs with hA hB
      · constructor
        · intro _
          exact ⟨hA.1, hA.2, hB⟩
        · intro _
          trivial
      · constructor
        · intro hfalse
          exact hfalse.elim
        · intro hR
          exact absurd hR.2.2 hB
      · constructor
        · intro hfalse
          exact hfalse.elim
        · intro hR
          exact absurd ⟨hR.1, hR.2.1⟩ hA
  refine ⟨key, fun h => ?_⟩
  cases hg : (handleRequestVote st m now).2.vote_granted
  · rfl
  · exact absurd ((key.mp hg).2.1) (by omega)

/-- Witness for C4: a fresh follower grants a term-2 request from a
candidate with an up-to-date (empty) log; a term-5 node denies a term-3
request. -/
theorem C4_vote_granted_iff_witness :
    (handleRequestVote followerSt rvHighMsg 3).2.vote_granted = true ∧
    (handleRequestVote term5St staleRvMsg 9).2.vote_granted = false :=
  ⟨((C4_vote_granted_iff followerSt rvHighMsg 3).1).mpr (by decide),
   (C4_vote_granted_iff term5St staleRvMsg 9).2 (by decide)⟩

/-- Claim C5.  start_election makes the node leader exactly when the
number of vote grants counting the self-vote exceeds half of the full
fixed node set (len(node.all_nodes) // 2), irrespective of how many
peers were reachable (the grants list holds one flag per peer that
answered). -/
theorem C5_leader_iff_strict_majority :
    ∀ (st : RaftState) (grants : List Bool) (now timeout : Int),
      ((start_election st grants now timeout).role = Role.leader ↔
        2 * (1 + (grants.filter (fun b => b)).length) > st.all_nodes.length) := by
  intro st grants now timeout
  unfold start_election
  split_ifs with h <;> simp [become_leader, startElectionCandidate] at h ⊢ <;> omega

/-- Claim C6.  Any inter-node RPC carrying a term strictly below the
receiver's current term is rejected (success false / vote not granted)
and the receiver's whole state — term, vote, role, leader id, log,
timers, players, active game — is returned unchanged. -/
theorem C6_stale_term_rejected_no_change :
    ∀ (st : RaftState) (now : Int),
      (∀ m : AppendEntriesMsg, m.term < st.current_term →
        handleAppendEntries st m now = (st, { term := st.current_term, success := false })) ∧
      (∀ m : RequestVoteMsg, m.term < st.current_term →
        handleRequestVote st m now = (st, { term := st.current_term, vote_granted := false })) := by
  intro st now
  constructor
  · intro m h
    simp [handleAppendEntries, not_le.mpr h]
  · intro m h
    unfold handleRequestVote
    simp only [if_neg (by omega : ¬ m.term > st.current_term)]
    have h2 : ¬ ((st.voted_for = Option.none ∨ st.voted_for = m.candidate_id) ∧
        m.term ≥ st.current_term) := by
      intro hc
      omega
    simp only [if_neg h2]

/-- Witness for C6: term-3 RPCs of both kinds against a term-5 node. -/
theorem C6_stale_term_rejected_no_change_witness :
    handleAppendEntries term5St staleAeMsg 9 = (term5St, { term := 5, success := false }) ∧
    handleRequestVote term5St staleRvMsg 9 = (term5St, { term := 5, vote_granted := false }) :=
  ⟨(C6_stale_term_rejected_no_change term5St 9).1 staleAeMsg (by decide),
   (C6_stale_term_rejected_no_change term5St 9).2 staleRvMsg (by decide)⟩

/-- Claim C7.  The claim says submitting the active question's correct
index raises the player's score by the fixed award.  The code stores
answers as text (question 1) or a singleton list of text (questions 2-5)
and compares the submitted value to that stored value with Python ==, so
an integer submission never matches any question's stored answer — first
conjunct, for every bank position and every integer.  Concretely
(remaining conjuncts): the correct index of the question at position 0
is 0 (option "19" is the stored answer), yet submitting answer 0 to
that active question reports correct = false and leaves the player's
score at 0 instead of raising it by 10. -/
theorem C7_integer_answer_never_scores :
    (∀ (k : Nat) (i : Int), pyEq (answerOfIdx k) (PyVal.int i) = false) ∧
    (questions.get? 0).map correctIndexOf = some (some 0) ∧
    handleAnswer ansSt "p1" (PyVal.int 0) (PyVal.int 0) 10 =
      .ok (ansSt, some { correct := false, score := 0 }) := by
  refine ⟨?_, by decide, rfl⟩
  intro k i
  match k with
  | 0 => rfl
  | 1 => rfl
  | 2 => rfl
  | 3 => rfl
  | 4 => rfl
  | n + 5 => rfl

/-- Claim C8, counterexample.  The claim says a join arriving at a
non-leader node that knows no leader fails with a NotLeaderError-style
reply and leaves the session state unchanged.  A fresh follower with
leader_id = None executes the join locally: its players map changes. -/
theorem C8_follower_join_executes_locally :
    followerSt.role ≠ Role.leader ∧ followerSt.leader_id = Option.none ∧
    (handleJoin followerSt "p1" "Alice").1.players ≠ followerSt.players := by
  decide

/-- Claim C8, amended.  A join arriving at a node that is not the
leader — in particular a follower that knows no leader — is executed
locally against that node's players map and answered with a welcome
message carrying the new player; no NotLeaderError is produced and no
forwarding occurs.  (The amendment keeps to the non-leader domain of
the original claim: on a leader the source's await append_to_log()
raises before the welcome send, a path the claim does not cover.) -/
theorem C8_join_amended :
    ∀ (st : RaftState) (pid name : String), st.role ≠ Role.leader →
      dictContains (handleJoin st pid name).1.players pid = true ∧
      (handleJoin st pid name).2.player = { id := pid, name := name, score := 0 } := by
  intro st pid name hrole
  refine ⟨?_, ?_⟩ <;> simp [handleJoin, append_to_log, dictContains_dictInsert, hrole]

/-- Witness for C8 amended: the join at a fresh follower with no known
leader. -/
theorem C8_join_amended_witness :
    dictContains (handleJoin followerSt "p1" "Alice").1.players "p1" = true ∧
    (handleJoin followerSt "p1" "Alice").2.player =
      { id := "p1", name := "Alice", score := 0 } :=
  C8_join_amended followerSt "p1" "Alice" (by decide)

/-- Claim C9, counterexample.  The claim says only session end removes a
player, never a client disconnection.  A node with an active game and
player p1 runs the websocket cleanup for p1 (a disconnection): p1 is
deleted from the player store mid-game. -/
theorem C9_disconnect_removes_player :
    dictContains ansSt.players "p1" = true ∧
    ansSt.active_game.isSome = true ∧
    dictContains (handleDisconnect ansSt "p1").players "p1" = false := by
  decide

/-- Claim C9, amended.  The connection-handler cleanup removes exactly
the disconnecting player from the node's player store (any other
binding is untouched), regardless of any active game; the code models
no session-end removal at all. -/
theorem C9_removal_amended :
    ∀ (st : RaftState) (pid q : String),
      dictGet (handleDisconnect st pid).players q =
        if q = pid then Option.none else dictGet st.players q := by
  intro st pid q
  by_cases hc : dictContains st.players pid = true
  · simp [handleDisconnect, append_to_log, hc, dictGet_dictDel]
  · have hc2 : dictContains st.players pid = false := by
      cases h : dictContains st.players pid
      · rfl
      · exact absurd h hc
    simp [handleDisconnect, hc2]
    by_cases hq : q = pid
    · simp [hq]
      exact dictGet_eq_none_of_not_contains _ _ hc2
    · simp [hq]

/-- Claim C10.  The claim says the leader's question-selection step
evaluates without error to an in-range index.  It does not: the
selection expression is random.randint(0, len(questions - 1)), whose
subterm questions - 1 subtracts an int from a list and raises TypeError
for every possible random source, so a leader's start_new_game always
raises instead of broadcasting a question. -/
theorem C10_start_new_game_type_error :
    (∀ randint : Int → Int → Int, select_question_id randint = .error PyError.typeError) ∧
    start_new_game leaderSt (fun _ _ => 0) "g1" 0 = .error PyError.typeError :=
  ⟨fun _ => rfl, rfl⟩

end Trivia
